import Mathlib

/-!
Verification development for the Meeting-Scheduler agent-session core.

This file gives a shallow embedding, in Lean, of the agent session /
tool-dispatch orchestration layer of the Meeting-Scheduler repository
(`app/services/mcp_client_service.py`, with the contact-resolution and
tool-invocation helpers from `gmailServer.py` and `utils/call_mcp_tool.py`
and the command shortcuts from `app/utils/whatsapp_utils.py`), and proves
the behavioural properties of that layer.

Modelling conventions:
* Python exceptions are modelled explicitly: a computation that may raise
  is a value of `Except String _` (the error carries `str(e)`), or an
  `Option String` field holding the raised message.
* The language model and the remote tool servers are external
  collaborators; they enter the model as oracle data (`AgentBehavior`,
  argument functions), never as code of this layer.
* Python strings map to `String`; `str.lower` maps to a character-wise
  `Char.toLower` and `str.strip` to `String.trim` (the inputs concerned
  are ASCII).
-/

/-- Python `str.lower()` (character-wise lowering; ASCII-faithful). -/
def pyLower (s : String) : String := String.mk (s.toList.map Char.toLower)

/-- The default whitespace set stripped by Python `str.strip()`
(ASCII part; the inputs concerned here are ASCII). -/
def isPySpace (c : Char) : Bool :=
  c == ' ' || c == '\t' || c == '\n' || c == '\r' || c == '\x0b' || c == '\x0c'

/-- Python `str.strip()` (whitespace trimmed from both ends). -/
def pyStrip (s : String) : String :=
  String.mk (((s.toList.dropWhile isPySpace).reverse.dropWhile isPySpace).reverse)

/-- A Tool Descriptor: a named remote capability collected at session
initialization (`McpToolSpec.to_tool_list_async` result element). -/
structure ToolDescriptor where
  name : String
  deriving DecidableEq, Repr

/-- An event of the agent's live event stream
(`handler.stream_events()` in `handle_user_message`): a `ToolCall` with
tool name and keyword arguments, a `ToolCallResult`, or any other
workflow event (ignored by the loop). -/
inductive StreamEvent
  | toolCall (toolName : String) (toolKwargs : List (String × String))
  | toolCallResult (toolName : String)
  | other
  deriving DecidableEq, Repr

/-- One step of iterating the event stream: either the next event is
yielded, or the iteration raises an exception with the given message. -/
inductive StreamItem
  | ev (e : StreamEvent)
  | exn (msg : String)
  deriving DecidableEq, Repr

deriving instance DecidableEq for Except

/-- Oracle describing how the agent behaves on one `agent.run` call:
whether `agent.run` itself raises, the event stream it would emit, and
the final answer obtained by `await handler` (already coerced by
`str(...)`), which may itself raise. -/
structure AgentBehavior where
  runExn : Option String
  stream : List StreamItem
  final : Except String String
  deriving DecidableEq, Repr

/-- `WhatsAppMCPClient` state: `self.initialized`, `self.agent` (present
with its bound tool list), `self.agent_context` (present with its
accumulated turns), and `self.llm` (the Groq handle bound in
`__init__`, modelled opaquely as a string). -/
structure WhatsAppMCPClient where
  initialized : Bool
  agent : Option (List ToolDescriptor)
  agent_context : Option (List String)
  llm : String
  deriving DecidableEq, Repr

/-- The ceiling on tool calls per request (`max_tool_calls = 5`). -/
def max_tool_calls : Nat := 5

/-- The warning text logged when the ceiling is exceeded
(`f"Too many tool calls ({tool_call_count}), stopping to prevent loop"`). -/
def warnMsg (n : Nat) : String :=
  "Too many tool calls (" ++ toString n ++ "), stopping to prevent loop"

/-- The fixed sentinel returned when the session is not initialized. -/
def notInitializedMsg : String :=
  "❌ Meeting scheduler is not initialized. Please try again later."

/-- The user-facing error string produced at the `handle_user_message`
boundary (`f"Sorry, I encountered an error: {str(e)}"`). -/
def errorReply (cause : String) : String :=
  "Sorry, I encountered an error: " ++ cause

/-- Result of consuming the event stream through the governor loop:
the tool invocations actually dispatched/logged (`logger.info("Calling
tool ...")`), the warnings logged, the exception (if iteration raised),
and the final value of `tool_call_count`. -/
structure GovOutcome where
  dispatched : List (String × List (String × String))
  warnings : List String
  exn : Option String
  toolCallCount : Nat
  deriving DecidableEq, Repr

/-- The governor loop of `handle_user_message`:
`async for event in handler.stream_events()` with `tool_call_count`
incremented on each `ToolCall`, a warning and `break` as soon as the
count exceeds `max_tool_calls`, and an info log (the dispatch record)
otherwise. `n` is the current value of `tool_call_count`. -/
def consumeStream : List StreamItem → Nat → GovOutcome
  | [], n => ⟨[], [], none, n⟩
  | StreamItem.exn e :: _, n => ⟨[], [], some e, n⟩
  | StreamItem.ev (StreamEvent.toolCall name kwargs) :: rest, n =>
      if n + 1 > max_tool_calls then
        ⟨[], [warnMsg (n + 1)], none, n + 1⟩
      else
        let o := consumeStream rest (n + 1)
        ⟨(name, kwargs) :: o.dispatched, o.warnings, o.exn, o.toolCallCount⟩
  | StreamItem.ev (StreamEvent.toolCallResult _) :: rest, n => consumeStream rest n
  | StreamItem.ev StreamEvent.other :: rest, n => consumeStream rest n

/-- Result of one `handle_user_message` call: the returned string, the
dispatch and warning logs, and the session state afterwards. -/
structure HandleResult where
  response : String
  dispatched : List (String × List (String × String))
  warnings : List String
  finalState : WhatsAppMCPClient
  deriving DecidableEq, Repr

/-- `WhatsAppMCPClient.handle_user_message`: return the sentinel if the
session is uninitialized; otherwise run the agent, consume its event
stream through the governor loop, and `await` the final answer; any
exception raised on that path is caught at this single boundary and
converted with `errorReply`. -/
def handle_user_message (st : WhatsAppMCPClient) (beh : AgentBehavior)
    (message_content : String) : HandleResult :=
  if !st.initialized || st.agent.isNone || st.agent_context.isNone then
    ⟨notInitializedMsg, [], [], st⟩
  else
    match beh.runExn with
    | some e => ⟨errorReply e, [], [], st⟩
    | none =>
        let gov := consumeStream beh.stream 0
        let st' : WhatsAppMCPClient :=
          { st with agent_context := st.agent_context.map (fun c => c ++ [message_content]) }
        match gov.exn with
        | some e => ⟨errorReply e, gov.dispatched, gov.warnings, st'⟩
        | none =>
            match beh.final with
            | Except.error e => ⟨errorReply e, gov.dispatched, gov.warnings, st'⟩
            | Except.ok r => ⟨r, gov.dispatched, gov.warnings, st'⟩

/-- Count of Tool Invocation events the stream would emit. -/
def streamToolCalls (l : List StreamItem) : Nat :=
  match l with
  | [] => 0
  | StreamItem.ev (StreamEvent.toolCall _ _) :: rest => streamToolCalls rest + 1
  | _ :: rest => streamToolCalls rest

/-- The sequence of Tool Invocation events of a stream, in order. -/
def toolCallsOf : List StreamItem → List (String × List (String × String))
  | [] => []
  | StreamItem.ev (StreamEvent.toolCall n k) :: rest => (n, k) :: toolCallsOf rest
  | _ :: rest => toolCallsOf rest

/-- Whether a stream item is an exception step. -/
def isExnItem : StreamItem → Bool
  | StreamItem.exn _ => true
  | _ => false

/-- `_get_agent` / `get_agent`: loop over the tool specs in registration
order, `await spec.to_tool_list_async()` for each, and extend one flat
list. Each fetch is an `Except`: the first fetch that raises propagates
(the later fetches are not performed, no partial agent is built). -/
def get_agent : List (Except String (List ToolDescriptor)) →
    Except String (List ToolDescriptor)
  | [] => Except.ok []
  | Except.error e :: _ => Except.error e
  | Except.ok ts :: rest =>
      match get_agent rest with
      | Except.error e => Except.error e
      | Except.ok acc => Except.ok (ts ++ acc)

/-- `WhatsAppMCPClient.initialize_mcp_clients`, with the per-provider
fetch outcomes supplied as oracle data: on success the agent is bound to
the flattened tool list, a fresh context is created and
`self.initialized` is set; on any failure the `except` block sets
`self.initialized = False` and re-raises (second component carries the
propagated exception message). -/
def initialize_mcp_clients (st : WhatsAppMCPClient)
    (fetches : List (Except String (List ToolDescriptor))) :
    WhatsAppMCPClient × Option String :=
  match get_agent fetches with
  | Except.error e => ({ st with initialized := false }, some e)
  | Except.ok tools =>
      ({ st with agent := some tools, agent_context := some [], initialized := true },
       none)

/-- The fixed help keyword set (`help_commands` in `is_help_command`). -/
def help_commands : List String := ["help", "hi", "hello", "start", "menu"]

/-- `is_help_command`: `message.lower().strip() in help_commands`. -/
def is_help_command (message : String) : Bool :=
  help_commands.contains (pyStrip (pyLower message))

/-- `is_status_command`: `message.lower().strip() == "status"`. -/
def is_status_command (message : String) : Bool :=
  pyStrip (pyLower message) == "status"

/-- `get_help_message`: the fixed help text. -/
def get_help_message : String :=
  "*Meeting Scheduler Bot*\n\nI can help you with:\n- *Check availability*\n- *Schedule meetings*\n- *Send emails*\n- *Get schedule*\n- *Generate MoM*\n\n*Commands:*\n- Type \"help\" for this message\n- Type \"status\" to check if I\x27m working\n\nJust send me a message and I\x27ll help you!"

/-- The fixed online message returned for the status command in
`generate_response_async`. -/
def statusOnlineMsg : String :=
  "✅ Meeting Scheduler Bot is online and ready to help!"

/-- `generate_response_async`: classify the raw inbound text against the
two fixed keyword sets before anything reaches the agent; `mcp` is the
`process_message_with_mcp` call used on the fall-through path. The
second component records whether the Agent Session was invoked. -/
def generate_response_async (mcp : String → String) (message_text : String) :
    String × Bool :=
  if is_help_command message_text then (get_help_message, false)
  else if is_status_command message_text then (statusOnlineMsg, false)
  else (mcp message_text, true)

/-- Split a string at its first `'='` (Python `s.split("=", 1)` when an
`'='` is present): everything before the first `'='`, and everything
after it (which may itself contain `'='`). -/
def splitFirstEq (s : String) : String × String :=
  let cs := s.toList
  (String.mk (cs.takeWhile (fun c => c ≠ '=')),
   String.mk ((cs.dropWhile (fun c => c ≠ '=')).drop 1))

/-- One line of the contacts file, as `load_contacts` processes it:
lines containing `'='` are stripped, split at the first `'='`, and give
the entry `(name.lower().strip(), email.strip())`; other lines are
skipped. -/
def parseContactLine (line : String) : Option (String × String) :=
  if line.toList.contains '=' then
    let nv := splitFirstEq (pyStrip line)
    some (pyStrip (pyLower nv.1), pyStrip nv.2)
  else
    none

/-- `load_contacts`: if the contacts file exists (`some` its lines),
build the contact entries in line order; a missing file yields the empty
mapping. The entry list together with `dictLookup` below models the
Python dict built by repeated assignment. -/
def load_contacts (file : Option (List String)) : List (String × String) :=
  match file with
  | none => []
  | some lines => lines.filterMap parseContactLine

/-- Lookup in the contact mapping with Python-dict semantics: repeated
assignment to the same key overwrites, so the last entry for a key
wins. -/
def dictLookup (contacts : List (String × String)) (key : String) : Option String :=
  (contacts.reverse.find? (fun p => p.1 == key)).map (fun p => p.2)

/-- `resolve_emails`: re-read the contacts file (no caching — the file
content is an argument consulted afresh on every call), then map each
name: a name whose `lower().strip()` form is a key resolves to that
key's address, any other name passes through unchanged. -/
def resolve_emails (names : List String) (contacts_file : Option (List String)) :
    List String :=
  let contacts := load_contacts contacts_file
  names.map (fun n =>
    match dictLookup contacts (pyStrip (pyLower n)) with
    | some e => e
    | none => n)

/-- Outcome of one remote tool invocation attempt (`client.call_tool`):
a result, or a raised exception carrying `str(e)`. -/
inductive ToolCallOutcome
  | ok (result : String)
  | exn (message : String)
  deriving DecidableEq, Repr

/-- What `call_mcp_tool` returns: the raw remote result, or the
error payload dict `{"success": False, "message": ...}`. -/
inductive CallToolReturn
  | result (r : String)
  | failurePayload (success : Bool) (message : String)
  deriving DecidableEq, Repr

/-- `utils/call_mcp_tool.call_mcp_tool`: await `client.call_tool` once —
there is no retry loop, so the second component counts exactly the one
remote invocation performed — and convert a raised exception into the
failure payload instead of re-raising. -/
def call_mcp_tool (call_tool : String → List (String × String) → ToolCallOutcome)
    (tool_name : String) (args : List (String × String)) : CallToolReturn × Nat :=
  match call_tool tool_name args with
  | ToolCallOutcome.ok r => (CallToolReturn.result r, 1)
  | ToolCallOutcome.exn e =>
      (CallToolReturn.failurePayload false
        ("Error calling tool " ++ tool_name ++ ": " ++ e), 1)

/-- The dict returned by `GmailMCPServer.send_email`. -/
structure EmailSendResult where
  success : Bool
  message : String
  id : Option String
  deriving DecidableEq, Repr

/-- `GmailMCPServer.send_email`: resolve the recipients through the
contact directory, then perform the Gmail send (oracle `sendRaw`,
applied to the resolved recipients, subject and body); the whole body
sits in a `try` whose `except` returns the failure dict rather than
raising. -/
def send_email (sendRaw : List String → String → String → Except String String)
    (contacts_file : Option (List String)) (toAddrs : List String)
    (subject body : String) : EmailSendResult :=
  let recipients := resolve_emails toAddrs contacts_file
  match sendRaw recipients subject body with
  | Except.ok sentId =>
      ⟨true, "Email sent to " ++ toString recipients, some sentId⟩
  | Except.error e => ⟨false, "Error: " ++ e, none⟩

/-- The process-wide mutable llama-index configuration
(`Settings.llm`), assigned by every `WhatsAppMCPClient.__init__`. -/
structure World where
  settingsLlm : Option String
  deriving DecidableEq, Repr

/-- `WhatsAppMCPClient.__init__`: a fresh, uninitialized client bound to
its own llm handle; as a side effect the constructor overwrites the
process-wide `Settings.llm` binding. -/
def mkWhatsAppMCPClient (w : World) (llm : String) : WhatsAppMCPClient × World :=
  (⟨false, none, none, llm⟩, { w with settingsLlm := some llm })

/-- The language model as a pure oracle: the behaviour the agent run
exhibits, as a function of the session's own llm handle, its own
conversation context and the inbound message. -/
def ModelOracle : Type :=
  String → List String → String → AgentBehavior

/-- `process_message_with_mcp`: construct a brand-new client for the
request (mutating the shared `Settings.llm`), run its initialization,
then handle the message; an initialization failure is caught here and
phrased as the processing-error string. -/
def process_message_with_mcp (oracle : ModelOracle)
    (fetches : List (Except String (List ToolDescriptor)))
    (w : World) (llm : String) (message : String) : String × World :=
  let cw := mkWhatsAppMCPClient w llm
  match initialize_mcp_clients cw.1 fetches with
  | (_, some e) =>
      ("Sorry, I encountered an error processing your request: " ++ e, cw.2)
  | (st, none) =>
      let beh := oracle st.llm (st.agent_context.getD []) message
      ((handle_user_message st beh message).response, cw.2)

/-- Two requests processed in sequence through the shared process-wide
state, each by its own freshly constructed Agent Session. -/
def processTwo (oracle : ModelOracle)
    (f1 f2 : List (Except String (List ToolDescriptor)))
    (w : World) (llm1 llm2 m1 m2 : String) : String × String × World :=
  let r1 := process_message_with_mcp oracle f1 w llm1 m1
  let r2 := process_message_with_mcp oracle f2 r1.2 llm2 m2
  (r1.1, r2.1, r2.2)

/-! ## Theorems -/

/-- `handle_user_message` never changes the tool set the agent is bound
to: the session's `agent` field is the same in every branch. -/
theorem handle_preserves_agent (st : WhatsAppMCPClient) (beh : AgentBehavior)
    (msg : String) :
    (handle_user_message st beh msg).finalState.agent = st.agent := by
  unfold handle_user_message
  cases hinit : (!st.initialized || st.agent.isNone || st.agent_context.isNone) with
  | true => simp
  | false =>
      simp only [Bool.false_eq_true, if_false]
      cases hre : beh.runExn with
      | some e => simp
      | none =>
          simp only []
          cases hfe : (consumeStream beh.stream 0).exn with
          | some e => simp
          | none =>
              cases hf : beh.final with
              | error e => simp [hfe, hf]
              | ok r => simp [hfe, hf]

/-- Claim C1: for every session state, agent behaviour and input string,
`handle_user_message` returns a string and never propagates an
exception: the result is the not-initialized sentinel, or the error
string `"Sorry, I encountered an error: <cause>"` produced at the
single outer boundary from whatever exception was raised while
submitting the message, consuming the event stream, or awaiting the
final answer, or the successfully awaited final answer itself. -/
theorem handle_user_message_total_boundary (st : WhatsAppMCPClient)
    (beh : AgentBehavior) (msg : String) :
    (handle_user_message st beh msg).response = notInitializedMsg
    ∨ (∃ cause, (handle_user_message st beh msg).response = errorReply cause)
    ∨ (∃ s, beh.final = Except.ok s ∧ (handle_user_message st beh msg).response = s) := by
  unfold handle_user_message
  cases hinit : (!st.initialized || st.agent.isNone || st.agent_context.isNone) with
  | true => left; simp
  | false =>
      simp only [Bool.false_eq_true, if_false]
      cases hre : beh.runExn with
      | some e => right; left; exact ⟨e, by simp⟩
      | none =>
          simp only []
          cases hfe : (consumeStream beh.stream 0).exn with
          | some e => right; left; exact ⟨e, by simp⟩
          | none =>
              cases hf : beh.final with
              | error e => right; left; exact ⟨e, by simp [hfe, hf]⟩
              | ok r => right; right; exact ⟨r, rfl, by simp [hfe, hf]⟩

/-- Claim C3: if the session was never successfully initialized (the
`initialized` flag unset, or the agent handle missing, or the context
missing), `handle_user_message` returns exactly the fixed
not-initialized sentinel, independent of the input message and of the
agent behaviour, and (being a total function) never raises. -/
theorem uninitialized_returns_sentinel (st : WhatsAppMCPClient)
    (beh beh2 : AgentBehavior) (msg msg2 : String)
    (h : st.initialized = false ∨ st.agent = none ∨ st.agent_context = none) :
    (handle_user_message st beh msg).response = notInitializedMsg ∧
    (handle_user_message st beh msg).response
      = (handle_user_message st beh2 msg2).response := by
  have hb : (!st.initialized || st.agent.isNone || st.agent_context.isNone) = true := by
    rcases h with h | h | h <;> simp [h]
  constructor <;> simp [handle_user_message, hb]

/-- Witness for C3 at a concrete uninitialized state and two distinct
inputs. -/
theorem uninitialized_returns_sentinel_witness :
    ((⟨false, none, none, "groq"⟩ : WhatsAppMCPClient).initialized = false
      ∨ (⟨false, none, none, "groq"⟩ : WhatsAppMCPClient).agent = none
      ∨ (⟨false, none, none, "groq"⟩ : WhatsAppMCPClient).agent_context = none) ∧
    (handle_user_message ⟨false, none, none, "groq"⟩
        ⟨none, [], Except.ok "hi"⟩ "schedule meeting today").response
      = notInitializedMsg ∧
    (handle_user_message ⟨false, none, none, "groq"⟩
        ⟨none, [], Except.ok "hi"⟩ "schedule meeting today").response
      = (handle_user_message ⟨false, none, none, "groq"⟩
          ⟨some "x", [], Except.error "y"⟩ "anything").response :=
  ⟨Or.inl rfl,
   (uninitialized_returns_sentinel ⟨false, none, none, "groq"⟩
      ⟨none, [], Except.ok "hi"⟩ ⟨some "x", [], Except.error "y"⟩
      "schedule meeting today" "anything" (Or.inl rfl)).1,
   (uninitialized_returns_sentinel ⟨false, none, none, "groq"⟩
      ⟨none, [], Except.ok "hi"⟩ ⟨some "x", [], Except.error "y"⟩
      "schedule meeting today" "anything" (Or.inl rfl)).2⟩

/-- Claim C4: command-shortcut classification is a pure function of the
lowercased, stripped inbound text: it lands in the help set exactly when
that form is one of help/hi/hello/start/menu (answered with the fixed
help message), in the status set exactly when that form is "status"
(answered with the fixed online message), in both cases without
invoking the Agent Session (flag `false`), and everything else falls
through to the agent; checked on the spec's concrete examples. -/
theorem command_shortcut_classification (f : String → String) (msg : String) :
    (is_help_command msg = true ↔ pyStrip (pyLower msg) ∈ help_commands) ∧
    (is_status_command msg = true ↔ pyStrip (pyLower msg) = "status") ∧
    generate_response_async f msg =
      (if is_help_command msg then (get_help_message, false)
       else if is_status_command msg then (statusOnlineMsg, false)
       else (f msg, true)) ∧
    is_help_command "HELP" = true ∧
    is_help_command " hi " = true ∧
    is_help_command "Menu" = true ∧
    is_status_command "status" = true ∧
    generate_response_async f "HELP" = (get_help_message, false) ∧
    generate_response_async f " hi " = (get_help_message, false) ∧
    generate_response_async f "Menu" = (get_help_message, false) ∧
    generate_response_async f "status" = (statusOnlineMsg, false) ∧
    is_help_command "schedule meeting today" = false ∧
    is_status_command "schedule meeting today" = false ∧
    generate_response_async f "schedule meeting today"
      = (f "schedule meeting today", true) := by
  refine ⟨?_, ?_, rfl, by decide, by decide, by decide, by decide, ?_, ?_, ?_, ?_,
    by decide, by decide, ?_⟩
  · exact ⟨fun h => List.mem_of_elem_eq_true h, fun h => List.elem_eq_true_of_mem h⟩
  · simp [is_status_command]
  · have h : is_help_command "HELP" = true := by decide
    simp [generate_response_async, h]
  · have h : is_help_command " hi " = true := by decide
    simp [generate_response_async, h]
  · have h : is_help_command "Menu" = true := by decide
    simp [generate_response_async, h]
  · have h1 : is_help_command "status" = false := by decide
    have h2 : is_status_command "status" = true := by decide
    simp [generate_response_async, h1, h2]
  · have h1 : is_help_command "schedule meeting today" = false := by decide
    have h2 : is_status_command "schedule meeting today" = false := by decide
    simp [generate_response_async, h1, h2]

/-- Claim C5: if the tool-list fetch of any single provider fails,
`get_agent` propagates an initialization error (so no agent with a
partial tool set is produced), `initialize_mcp_clients` re-raises it,
and the session is left marked uninitialized with its agent binding
untouched. -/
theorem init_aborts_on_provider_failure (st : WhatsAppMCPClient)
    (fetches : List (Except String (List ToolDescriptor)))
    (h : ∃ e, Except.error e ∈ fetches) :
    (∃ e2, get_agent fetches = Except.error e2) ∧
    (initialize_mcp_clients st fetches).2.isSome = true ∧
    (initialize_mcp_clients st fetches).1.initialized = false ∧
    (initialize_mcp_clients st fetches).1.agent = st.agent := by
  obtain ⟨e, he⟩ := h
  have hga : ∃ e2, get_agent fetches = Except.error e2 := by
    induction fetches with
    | nil => cases he
    | cons f rest ih =>
        cases f with
        | error e3 => exact ⟨e3, rfl⟩
        | ok ts =>
            have hmem : Except.error e ∈ rest := by
              rcases List.mem_cons.mp he with h1 | h1
              · exact absurd h1 (by simp)
              · exact h1
            obtain ⟨e2, hrest⟩ := ih hmem
            exact ⟨e2, by simp [get_agent, hrest]⟩
  obtain ⟨e2, hga2⟩ := hga
  exact ⟨⟨e2, hga2⟩, by simp [initialize_mcp_clients, hga2],
    by simp [initialize_mcp_clients, hga2], by simp [initialize_mcp_clients, hga2]⟩

/-- Witness for C5: one provider of three is down. -/
theorem init_aborts_on_provider_failure_witness :
    (∃ e, Except.error e ∈
      ([Except.ok [⟨"send_email"⟩], Except.error "connection refused",
        Except.ok [⟨"generate_mom"⟩]] :
        List (Except String (List ToolDescriptor)))) ∧
    (∃ e2, get_agent
      [Except.ok [⟨"send_email"⟩], Except.error "connection refused",
        Except.ok [⟨"generate_mom"⟩]] = Except.error e2) ∧
    (initialize_mcp_clients ⟨false, none, none, "groq"⟩
      [Except.ok [⟨"send_email"⟩], Except.error "connection refused",
        Except.ok [⟨"generate_mom"⟩]]).2.isSome = true ∧
    (initialize_mcp_clients ⟨false, none, none, "groq"⟩
      [Except.ok [⟨"send_email"⟩], Except.error "connection refused",
        Except.ok [⟨"generate_mom"⟩]]).1.initialized = false ∧
    (initialize_mcp_clients ⟨false, none, none, "groq"⟩
      [Except.ok [⟨"send_email"⟩], Except.error "connection refused",
        Except.ok [⟨"generate_mom"⟩]]).1.agent
      = (⟨false, none, none, "groq"⟩ : WhatsAppMCPClient).agent :=
  ⟨⟨"connection refused", by simp⟩,
    (init_aborts_on_provider_failure ⟨false, none, none, "groq"⟩ _
      ⟨"connection refused", by simp⟩).1,
    (init_aborts_on_provider_failure ⟨false, none, none, "groq"⟩ _
      ⟨"connection refused", by simp⟩).2.1,
    (init_aborts_on_provider_failure ⟨false, none, none, "groq"⟩ _
      ⟨"connection refused", by simp⟩).2.2.1,
    (init_aborts_on_provider_failure ⟨false, none, none, "groq"⟩ _
      ⟨"connection refused", by simp⟩).2.2.2⟩

/-- Claim C6: when every provider fetch succeeds, the tool set bound to
the session is exactly the concatenation of the fetched per-provider
lists in registration order (within-provider order preserved), and
handling a message never changes it. -/
theorem toolset_ordered_concatenation (tss : List (List ToolDescriptor))
    (st : WhatsAppMCPClient) (beh : AgentBehavior) (msg : String) :
    get_agent (tss.map Except.ok) = Except.ok tss.flatten ∧
    (initialize_mcp_clients st (tss.map Except.ok)).1.agent = some tss.flatten ∧
    (handle_user_message (initialize_mcp_clients st (tss.map Except.ok)).1 beh
        msg).finalState.agent = some tss.flatten := by
  have hga : get_agent (tss.map Except.ok) = Except.ok tss.flatten := by
    induction tss with
    | nil => rfl
    | cons ts rest ih => simp [get_agent, ih, List.flatten]
  refine ⟨hga, by simp [initialize_mcp_clients, hga], ?_⟩
  rw [handle_preserves_agent]
  simp [initialize_mcp_clients, hga]

/-- Claim C7: contact resolution maps each name independently — a name
whose lowercased, stripped form is a key of the directory built from
the file content resolves to that key's address, and any other name
passes through unchanged; the directory is rebuilt from the file
content handed to each call (no cache in the model's state); checked on
the spec's mixed-case example. -/
theorem contact_resolution_pointwise (names : List String)
    (file : Option (List String)) :
    (resolve_emails names file).length = names.length ∧
    (∀ i : Nat, (resolve_emails names file)[i]? =
      (names[i]?).map (fun n =>
        match dictLookup (load_contacts file) (pyStrip (pyLower n)) with
        | some e => e
        | none => n)) ∧
    resolve_emails ["Arun"] (some ["arun=arun@example.com"])
      = ["arun@example.com"] ∧
    resolve_emails ["bob@x.com"] (some ["arun=arun@example.com"])
      = ["bob@x.com"] := by
  refine ⟨by simp [resolve_emails], ?_, by decide, by decide⟩
  intro i
  simp [resolve_emails, List.getElem?_map]

/-- Claim C10 (implicit): a missing contacts file loads as the empty
mapping without raising, so resolution passes every name through
unchanged; a line without an equals sign is silently ignored; splitting
happens only at the first equals sign, so the mapped address may itself
contain equals signs. -/
theorem contacts_missing_file_behavior (names : List String) (l : String)
    (lines : List String) (h : l.toList.contains '=' = false) :
    load_contacts none = [] ∧
    resolve_emails names none = names ∧
    load_contacts (some (l :: lines)) = load_contacts (some lines) ∧
    load_contacts (some ["a=b=c"]) = [("a", "b=c")] ∧
    resolve_emails ["A"] (some ["a=x=y@z"]) = ["x=y@z"] := by
  refine ⟨rfl, ?_, ?_, by decide, by decide⟩
  · simp [resolve_emails, load_contacts, dictLookup]
  · have h2 : '=' ∉ l.data := by simpa using h
    have hpl : parseContactLine l = none := by simp [parseContactLine, h2]
    simp [load_contacts, List.filterMap_cons, hpl]

/-- Witness for C10 at a concrete separator-free line. -/
theorem contacts_missing_file_behavior_witness :
    load_contacts none = [] ∧
    resolve_emails ["arun", "Bob"] none = ["arun", "Bob"] ∧
    load_contacts (some ["just a note", "arun=a@b"])
      = load_contacts (some ["arun=a@b"]) ∧
    load_contacts (some ["a=b=c"]) = [("a", "b=c")] ∧
    resolve_emails ["A"] (some ["a=x=y@z"]) = ["x=y@z"] :=
  contacts_missing_file_behavior ["arun", "Bob"] "just a note" ["arun=a@b"]
    (by decide)

/-- Claim C8: a failing remote tool invocation is caught, not retried:
`call_mcp_tool` performs exactly one remote invocation and returns the
failure payload (success flag false plus an error message) instead of
raising, and `send_email` likewise converts a failing send into its
failure dict. -/
theorem tool_failure_payload_once
    (call_tool : String → List (String × String) → ToolCallOutcome)
    (tool_name : String) (args : List (String × String)) (e : String)
    (sendRaw : List String → String → String → Except String String)
    (cf : Option (List String)) (toAddrs : List String)
    (subject body e2 : String)
    (h1 : call_tool tool_name args = ToolCallOutcome.exn e)
    (h2 : sendRaw (resolve_emails toAddrs cf) subject body = Except.error e2) :
    call_mcp_tool call_tool tool_name args =
      (CallToolReturn.failurePayload false
        ("Error calling tool " ++ tool_name ++ ": " ++ e), 1) ∧
    send_email sendRaw cf toAddrs subject body
      = ⟨false, "Error: " ++ e2, none⟩ := by
  constructor
  · simp [call_mcp_tool, h1]
  · simp [send_email, h2]

/-- Witness for C8 with concrete failing oracles. -/
theorem tool_failure_payload_once_witness :
    call_mcp_tool (fun _ _ => ToolCallOutcome.exn "connection refused")
        "send_email" [("name", "arun")] =
      (CallToolReturn.failurePayload false
        ("Error calling tool " ++ "send_email" ++ ": " ++ "connection refused"),
       1) ∧
    send_email (fun _ _ _ => Except.error "api down") none ["arun"] "s" "b"
      = ⟨false, "Error: " ++ "api down", none⟩ :=
  tool_failure_payload_once (fun _ _ => ToolCallOutcome.exn "connection refused")
    "send_email" [("name", "arun")] "connection refused"
    (fun _ _ _ => Except.error "api down") none ["arun"] "s" "b" "api down"
    rfl rfl

/-- The response of one `process_message_with_mcp` request does not
depend on the process-wide `Settings.llm` binding it starts from: the
agent is constructed with the session's own llm handle. -/
theorem process_response_world_independent (oracle : ModelOracle)
    (fetches : List (Except String (List ToolDescriptor))) (w w2 : World)
    (llm m : String) :
    (process_message_with_mcp oracle fetches w llm m).1
      = (process_message_with_mcp oracle fetches w2 llm m).1 := by
  unfold process_message_with_mcp mkWhatsAppMCPClient
  rcases hi : initialize_mcp_clients ⟨false, none, none, llm⟩ fetches with ⟨st, _ | e⟩
  · simp [hi]
  · simp [hi]

/-- Claim C9: two-run noninterference. Two requests processed in
sequence, each by its own freshly constructed Agent Session sharing
only the process-wide mutable `Settings.llm` binding: the first
request's returned text is unchanged when the second request's
providers, llm handle and message (and the initial shared binding) are
varied arbitrarily, and symmetrically for the second request — each
result is determined solely by that session's own oracle, providers,
llm handle and input. -/
theorem session_noninterference (oracle : ModelOracle)
    (f1 f1b f2 f2b : List (Except String (List ToolDescriptor)))
    (w wb : World) (llm1 llm1b llm2 llm2b m1 m1b m2 m2b : String) :
    (processTwo oracle f1 f2 w llm1 llm2 m1 m2).1
      = (processTwo oracle f1 f2b wb llm1 llm2b m1 m2b).1 ∧
    (processTwo oracle f1 f2 w llm1 llm2 m1 m2).2.1
      = (processTwo oracle f1b f2 wb llm1b llm2 m1b m2).2.1 := by
  constructor
  · show (process_message_with_mcp oracle f1 w llm1 m1).1
      = (process_message_with_mcp oracle f1 wb llm1 m1).1
    exact process_response_world_independent oracle f1 w wb llm1 m1
  · show (process_message_with_mcp oracle f2
        (process_message_with_mcp oracle f1 w llm1 m1).2 llm2 m2).1
      = (process_message_with_mcp oracle f2
        (process_message_with_mcp oracle f1b wb llm1b m1b).2 llm2 m2).1
    exact process_response_world_independent oracle f2 _ _ llm2 m2

/-- The governor observes exactly one dispatch record per Tool
Invocation event of the stream. -/
theorem toolCallsOf_length (l : List StreamItem) :
    (toolCallsOf l).length = streamToolCalls l := by
  induction l with
  | nil => rfl
  | cons it rest ih =>
      cases it with
      | exn e => simpa [toolCallsOf, streamToolCalls] using ih
      | ev e0 =>
          cases e0 with
          | toolCall n k => simp [toolCallsOf, streamToolCalls, ih]
          | toolCallResult n => simpa [toolCallsOf, streamToolCalls] using ih
          | other => simpa [toolCallsOf, streamToolCalls] using ih

/-- Behaviour of the governor loop on a stream that would emit more
Tool Invocation events than the ceiling allows (and raises no exception
of its own): the loop dispatches exactly the invocations that keep the
count within the ceiling, logs the single warning identifying the
offending count, and stops with `tool_call_count` one past the
ceiling. -/
theorem consumeStream_exceeds (l : List StreamItem) :
    ∀ n, n ≤ max_tool_calls → (∀ it ∈ l, isExnItem it = false) →
      max_tool_calls < n + streamToolCalls l →
      consumeStream l n =
        ⟨(toolCallsOf l).take (max_tool_calls - n), [warnMsg (max_tool_calls + 1)],
          none, max_tool_calls + 1⟩ := by
  induction l with
  | nil =>
      intro n hn _ hcount
      exfalso
      simp [streamToolCalls] at hcount
      omega
  | cons it rest ih =>
      intro n hn hclean hcount
      cases it with
      | exn e =>
          have hx := hclean (StreamItem.exn e) (by simp)
          simp [isExnItem] at hx
      | ev e0 =>
          cases e0 with
          | toolCall name kwargs =>
              by_cases hb : n + 1 > max_tool_calls
              · have hn5 : n = max_tool_calls := by omega
                subst hn5
                simp [consumeStream, max_tool_calls, toolCallsOf]
              · have hcount2 : max_tool_calls < (n + 1) + streamToolCalls rest := by
                  simp [streamToolCalls] at hcount
                  omega
                have hrec := ih (n + 1) (by omega)
                  (fun it2 hit => hclean it2 (List.mem_cons_of_mem _ hit)) hcount2
                have hmt : max_tool_calls - n = (max_tool_calls - (n + 1)) + 1 := by
                  omega
                simp [consumeStream, hb, hrec, toolCallsOf, hmt, List.take_succ_cons]
          | toolCallResult tn =>
              have hcount2 : max_tool_calls < n + streamToolCalls rest := by
                simpa [streamToolCalls] using hcount
              have hrec := ih n hn
                (fun it2 hit => hclean it2 (List.mem_cons_of_mem _ hit)) hcount2
              simp [consumeStream, hrec, toolCallsOf]
          | other =>
              have hcount2 : max_tool_calls < n + streamToolCalls rest := by
                simpa [streamToolCalls] using hcount
              have hrec := ih n hn
                (fun it2 hit => hclean it2 (List.mem_cons_of_mem _ hit)) hcount2
              simp [consumeStream, hrec, toolCallsOf]

/-- Claim C2, amended: for an initialized session whose agent stream
would emit strictly more than `max_tool_calls` Tool Invocation events,
and provided no exception is raised during the call and the awaited
final answer is non-empty text, `handle_user_message` never dispatches
invocation number `max_tool_calls + 1` (the dispatch log is exactly the
first `max_tool_calls` invocations), logs the warning identifying the
offending count, terminates consumption at that point
(`tool_call_count` stops at `max_tool_calls + 1`), and still returns
the non-empty final answer rather than an error string. -/
theorem governor_caps_tool_calls (st : WhatsAppMCPClient) (beh : AgentBehavior)
    (msg s : String)
    (h1 : st.initialized = true) (h2 : st.agent.isSome = true)
    (h3 : st.agent_context.isSome = true)
    (h4 : beh.runExn = none)
    (h5 : ∀ it ∈ beh.stream, isExnItem it = false)
    (h6 : max_tool_calls < streamToolCalls beh.stream)
    (h7 : beh.final = Except.ok s) (h8 : s ≠ "") :
    (handle_user_message st beh msg).response = s ∧
    (handle_user_message st beh msg).response ≠ "" ∧
    (handle_user_message st beh msg).dispatched
      = (toolCallsOf beh.stream).take max_tool_calls ∧
    (handle_user_message st beh msg).dispatched.length = max_tool_calls ∧
    (handle_user_message st beh msg).warnings = [warnMsg (max_tool_calls + 1)] ∧
    (consumeStream beh.stream 0).toolCallCount = max_tool_calls + 1 := by
  have ha : st.agent.isNone = false := by
    cases hx : st.agent
    · rw [hx] at h2; simp at h2
    · rfl
  have hc : st.agent_context.isNone = false := by
    cases hx : st.agent_context
    · rw [hx] at h3; simp at h3
    · rfl
  have hinit : (!st.initialized || st.agent.isNone || st.agent_context.isNone)
      = false := by
    simp [h1, ha, hc]
  have hcs := consumeStream_exceeds beh.stream 0 (by omega) h5 (by omega)
  rw [Nat.sub_zero] at hcs
  have hresp : (handle_user_message st beh msg).response = s := by
    simp [handle_user_message, hinit, h4, hcs, h7]
  have hdisp : (handle_user_message st beh msg).dispatched
      = (toolCallsOf beh.stream).take max_tool_calls := by
    simp [handle_user_message, hinit, h4, hcs, h7]
  refine ⟨hresp, by rw [hresp]; exact h8, hdisp, ?_, ?_, ?_⟩
  · rw [hdisp, List.length_take, toolCallsOf_length]
    omega
  · simp [handle_user_message, hinit, h4, hcs, h7]
  · rw [hcs]

/-- Counterexample to claim C2 as stated: a session whose stream would
emit six Tool Invocation events (strictly more than the ceiling of
five) but whose final-answer await raises. The governor does cap and
warn, yet `handle_user_message` returns the converted error string —
not a non-error string as the claim asserts for every such session
state. -/
theorem governor_caps_tool_calls_counterexample :
    max_tool_calls < streamToolCalls (List.replicate 6
      (StreamItem.ev (StreamEvent.toolCall "check_availability" []))) ∧
    (handle_user_message ⟨true, some [], some [], "groq"⟩
        ⟨none, List.replicate 6
          (StreamItem.ev (StreamEvent.toolCall "check_availability" [])),
         Except.error "boom"⟩ "book meetings").response
      = errorReply "boom" := by
  exact ⟨by decide, by decide⟩

/-- Witness for the amended C2 at a concrete six-invocation stream with
a successful non-empty final answer. -/
theorem governor_caps_tool_calls_witness :
    (handle_user_message ⟨true, some [], some [], "groq"⟩
        ⟨none, List.replicate 6
          (StreamItem.ev (StreamEvent.toolCall "schedule_meeting" [])),
         Except.ok "Scheduled."⟩ "m").response = "Scheduled." ∧
    (handle_user_message ⟨true, some [], some [], "groq"⟩
        ⟨none, List.replicate 6
          (StreamItem.ev (StreamEvent.toolCall "schedule_meeting" [])),
         Except.ok "Scheduled."⟩ "m").response ≠ "" ∧
    (handle_user_message ⟨true, some [], some [], "groq"⟩
        ⟨none, List.replicate 6
          (StreamItem.ev (StreamEvent.toolCall "schedule_meeting" [])),
         Except.ok "Scheduled."⟩ "m").dispatched
      = (toolCallsOf (List.replicate 6
          (StreamItem.ev (StreamEvent.toolCall "schedule_meeting" [])))).take
          max_tool_calls ∧
    (handle_user_message ⟨true, some [], some [], "groq"⟩
        ⟨none, List.replicate 6
          (StreamItem.ev (StreamEvent.toolCall "schedule_meeting" [])),
         Except.ok "Scheduled."⟩ "m").dispatched.length = max_tool_calls ∧
    (handle_user_message ⟨true, some [], some [], "groq"⟩
        ⟨none, List.replicate 6
          (StreamItem.ev (StreamEvent.toolCall "schedule_meeting" [])),
         Except.ok "Scheduled."⟩ "m").warnings = [warnMsg (max_tool_calls + 1)] ∧
    (consumeStream (List.replicate 6
        (StreamItem.ev (StreamEvent.toolCall "schedule_meeting" []))) 0).toolCallCount
      = max_tool_calls + 1 :=
  governor_caps_tool_calls ⟨true, some [], some [], "groq"⟩
    ⟨none, List.replicate 6
      (StreamItem.ev (StreamEvent.toolCall "schedule_meeting" [])),
     Except.ok "Scheduled."⟩ "m" "Scheduled."
    rfl rfl rfl rfl (by decide) (by decide) rfl (by decide)
